import Mathlib

/-!
# Verification of the movie collection manager and recommendation aggregator

Shallow embedding of `src/server/controllers/moviesController.js`:
the per-user collection CRUD operations (`getMovieCollection`,
`addToMovieCollection`, `updateMovieStatus`, `deleteMovieFromCollection`)
and the genre-based recommendation loop (`recommendMoviesByGenre`).

The persistence layer (`movieModel`) stores one document per user holding an
ordered list of saved movies; it is embedded as `Store := Option (List SavedMovie)`
for the single user an operation acts on (`none` = no collection document yet).
-/

namespace MovieApp

/-- A saved item in a user's collection: the fields pushed by
`addToMovieCollection` (`{ id, poster_path: posterPath, title, genres }`)
plus the mutable `status` field used by `updateMovieStatus`. -/
structure SavedMovie where
  id : Nat
  poster_path : String
  title : String
  genres : List String
  status : String
deriving DecidableEq, Repr

/-- Modelled from the spec: the movie document schema (`movieModel`) is not in
the excerpt; the spec describes a SavedItem's "user-assigned status — e.g.,
'to-watch'/'watched'" and a "default status" applied on insertion, so newly
appended items carry this default. -/
def defaultStatus : String := "to-watch"

/-- The stored collection document of one user: `none` when
`movieModel.findOne({user: _id})` finds nothing. -/
abbrev Store := Option (List SavedMovie)

/-- Observable outcome of one controller invocation:
`res.json({success:true, message})`, `res.json({success:true, movies})`,
`res.status(s).json({success:false, message})`, or a thrown error forwarded
to the generic handler via `next(error)`. -/
inductive ApiResult where
  | okMsg (message : String)
  | okMovies (movies : List SavedMovie)
  | failed (status : Nat) (message : String)
  | errorNext (message : String)
deriving DecidableEq, Repr

/-- `getMovieCollection`: looks the collection up via
`getMovieCollectionForUser`, which throws `'Movie collection not found'`
when the document is absent; otherwise answers with the movie list. -/
def getMovieCollection (store : Store) : ApiResult :=
  match store with
  | none => .errorNext "Movie collection not found"
  | some col => .okMovies col

/-- `addToMovieCollection`: find-or-create the document, reject with 400 when
some saved movie already has the given title, else append
`{ id, poster_path, title, genres }` (status filled by the schema default)
and save. Returns the store after the call together with the response. -/
def addToMovieCollection (store : Store) (id : Nat) (posterPath title : String)
    (genres : List String) : Store × ApiResult :=
  let col := store.getD []
  if col.any (fun movie => movie.title == title) then
    (store, .failed 400 "Movie already exists in collection")
  else
    (some (col ++ [{ id := id, poster_path := posterPath, title := title,
                     genres := genres, status := defaultStatus }]),
     .okMsg "Movie added to collection")

/-- `movieCol.movies.find(m => m.id === movieId)` followed by mutating that
movie's `status` in place: only the first match is updated. -/
def updateFirstStatus (col : List SavedMovie) (movieId : Nat) (status : String) :
    List SavedMovie :=
  match col with
  | [] => []
  | movie :: rest =>
    if movie.id == movieId then { movie with status := status } :: rest
    else movie :: updateFirstStatus rest movieId status

/-- `updateMovieStatus`: missing collection throws (generic handler); missing
item answers 404; otherwise the first movie with the given id gets the new
status and the document is saved. -/
def updateMovieStatus (store : Store) (movieId : Nat) (status : String) :
    Store × ApiResult :=
  match store with
  | none => (none, .errorNext "Movie collection not found")
  | some col =>
    match col.find? (fun movie => movie.id == movieId) with
    | none => (some col, .failed 404 "Movie not found in user's collection")
    | some _ => (some (updateFirstStatus col movieId status), .okMsg "Movie status updated")

/-- `deleteMovieFromCollection`: missing collection throws (generic handler);
`findIndex` of the id; `-1` answers 404; otherwise `splice(index, 1)` removes
exactly that element and the document is saved. -/
def deleteMovieFromCollection (store : Store) (movieId : Nat) : Store × ApiResult :=
  match store with
  | none => (none, .errorNext "Movie collection not found")
  | some col =>
    match col.findIdx? (fun movie => movie.id == movieId) with
    | none => (some col, .failed 404 "Movie not found in user's collection")
    | some index => (some (col.eraseIdx index), .okMsg "Movie removed from collection")

/-! ## Recommendation aggregator (`recommendMoviesByGenre`)

The working genre list starts from `req.user.genres.filter(Boolean)`: each
entry is a JSON string whose parse yields an object with a numeric `id`
(modelled as that parsed id, `some id`).  The widening branch pushes the JS
value `null` into this list (`genres.push(null)`), modelled as `none`.  On a
later iteration, building the discovery URL evaluates `JSON.parse(genre).id`;
for `genre = null` this is `JSON.parse("null").id = null.id`, which throws a
`TypeError`, caught by the surrounding `try` and forwarded to `next(error)` —
embedded as the `Except.error` exit carrying the state at the throw. -/

/-- A catalog item as filtered by the loop: only its external numeric `id`
is inspected; `title` stands for the rest of the payload. -/
structure Movie where
  id : Nat
  title : String
deriving DecidableEq, Repr

/-- The external world of one aggregation run:
`discover g` is `response.data.results` of the discovery call for genre id
`g` (fixed query filters: popularity-descending, no adult, no video, page 1,
vote count ≥ 1000, vote average ≥ 6); `savedAt n` is the result of
`movieModel.findOne({user: _id})` as fetched on loop iteration `n`
(fetched fresh each iteration, so it may differ across iterations). -/
structure Env where
  discover : Nat → List Movie
  savedAt : Nat → Option (List SavedMovie)

/-- Mutable state of the `while` loop: the working genre list (`none` is the
pushed null sentinel), `moviesPerGenre`, the accumulated `recommendedMovies`,
the iteration counter (indexing `savedAt`), and the number of discovery
requests initiated so far. -/
structure RecState where
  genres : List (Option Nat)
  mpg : Nat
  recd : List Movie
  iter : Nat
  calls : Nat
deriving DecidableEq, Repr

/-- The genre list holds no null sentinel, so every `JSON.parse(genre).id`
in the URL template evaluates without throwing. -/
def sentinelFree (gs : List (Option Nat)) : Bool := gs.all Option.isSome

/-- `moviesResponses.flatMap(r => r.data.results.slice(0, moviesPerGenre))`:
one discovery call per working-list genre, top `mpg` items each, concatenated
in genre order.  Only meaningful when `sentinelFree` holds. -/
def stepMovies (env : Env) (st : RecState) : List Movie :=
  st.genres.flatMap (fun g => (env.discover (g.getD 0)).take st.mpg)

/-- The saved-movie id list as fetched on iteration `n`:
`userMovies ? userMovies.movies.map(m => m.id) : []`. -/
def savedIdsAt (env : Env) (n : Nat) : List Nat :=
  match env.savedAt n with
  | none => []
  | some saved => saved.map (fun movie => movie.id)

/-- `movies.filter(m => !userMovieIds.includes(m.id) && !recommendedMovies.find(r => r.id === m.id))`:
the dedup check runs against the accumulated list as it stood at the start of
the iteration, not against the candidates admitted earlier in the same pass. -/
def stepFiltered (env : Env) (st : RecState) : List Movie :=
  (stepMovies env st).filter (fun m =>
    !((savedIdsAt env st.iter).contains m.id) && !(st.recd.any (fun r => r.id == m.id)))

/-- One iteration of the loop body.  A sentinel in the working list makes the
URL-building `JSON.parse(null).id` throw before `Promise.all` is awaited
(`Except.error`, counting only the requests initiated before the throw);
otherwise the candidates are fetched, filtered, appended and truncated to 20,
and the widening policy adjusts `genres`/`moviesPerGenre`. -/
def step (env : Env) (st : RecState) : Except RecState RecState :=
  if sentinelFree st.genres then
    let filtered := stepFiltered env st
    .ok { genres := if filtered.isEmpty then st.genres ++ [none] else st.genres
          mpg := if filtered.isEmpty then 5 else 10
          recd := (st.recd ++ filtered).take 20
          iter := st.iter + 1
          calls := st.calls + st.genres.length }
  else
    .error { st with calls := st.calls + (st.genres.takeWhile Option.isSome).length }

/-- `recommendedMovies.length < maxMovies && genres.length < 20`. -/
def loopCond (st : RecState) : Bool :=
  decide (st.recd.length < 20) && decide (st.genres.length < 20)

/-- Termination measure of the loop: each successful iteration either grows
the accumulated list or the working genre list, both bounded by 20. -/
def loopMeasure (st : RecState) : Nat :=
  (20 - st.recd.length) + (20 - st.genres.length)

/-- Fuel-indexed unfolding of the `while` loop; `none` means the fuel ran out
before the loop exited (shown below never to happen for fuel ≥ `loopMeasure`). -/
def loopFuel (env : Env) : Nat → RecState → Option (Except RecState RecState)
  | 0, st => if loopCond st then none else some (.ok st)
  | fuel + 1, st =>
    if loopCond st then
      match step env st with
      | .error e => some (.error e)
      | .ok st' => loopFuel env fuel st'
    else
      some (.ok st)

/-- Loop state on entry: filtered genre list parsed, `moviesPerGenre = 10`,
nothing accumulated. -/
def initState (userGenres : List Nat) : RecState :=
  { genres := userGenres.map some, mpg := 10, recd := [], iter := 0, calls := 0 }

/-- The loop state after exactly `n` successful iterations from `st`:
`none` when the run exits, throws, or is past its end before reaching `n`.
Used to pin a property to the very iteration at which it was checked. -/
def loopState (env : Env) : Nat → RecState → Option RecState
  | 0, st => some st
  | n + 1, st =>
    if loopCond st then
      match step env st with
      | .error _ => none
      | .ok st' => loopState env n st'
    else none

/-- The movie passed the candidate filter of an iteration the run actually
reached: at step `n` of the loop on `initState gs`, the movie is among that
iteration's filtered candidates, and its external id is absent from the
saved-id list fetched on that very iteration. -/
def UnsavedWhenFiltered (env : Env) (gs : List Nat) (m : Movie) : Prop :=
  ∃ n st', loopState env n (initState gs) = some st'
    ∧ st'.iter = n
    ∧ m ∈ stepFiltered env st'
    ∧ (savedIdsAt env n).contains m.id = false

/-- Observable outcome of `recommendMoviesByGenre`, each recording the number
of discovery requests initiated: the JSON movie list, the
400 `'No recommended movies found'` response, or an error forwarded to the
generic handler via `next(error)`. -/
inductive RecOutcome where
  | movies (l : List Movie) (calls : Nat)
  | emptyResult (calls : Nat)
  | err (calls : Nat)
deriving DecidableEq, Repr

/-- `recommendMoviesByGenre` for a user whose (already `filter(Boolean)`ed and
parsed) genre ids are `userGenres`: run the loop (40 units of fuel always
suffice, see `loopFuel_stable`), then answer 400 when nothing accumulated,
else the accumulated list. -/
def recommendMoviesByGenre (env : Env) (userGenres : List Nat) : RecOutcome :=
  match loopFuel env 40 (initState userGenres) with
  | none => .err 0
  | some (.error e) => .err e.calls
  | some (.ok fin) => if fin.recd.isEmpty then .emptyResult fin.calls else .movies fin.recd fin.calls

/-! ## Concrete environments used by witnesses and counterexamples -/

/-- A world with an empty catalog and no saved collection. -/
def envW : Env := { discover := fun _ => [], savedAt := fun _ => none }

/-- Ten distinct qualifying catalog items. -/
def movies10 : List Movie :=
  [⟨101, "m1"⟩, ⟨102, "m2"⟩, ⟨103, "m3"⟩, ⟨104, "m4"⟩, ⟨105, "m5"⟩,
   ⟨106, "m6"⟩, ⟨107, "m7"⟩, ⟨108, "m8"⟩, ⟨109, "m9"⟩, ⟨110, "m10"⟩]

/-- A world where the discovery calls for genres 28 and 12 both answer the
same ten popular items, and the user has no saved collection. -/
def env2 : Env :=
  { discover := fun g => if g == 28 || g == 12 then movies10 else []
    savedAt := fun _ => none }

/-- The list actually returned by `recommendMoviesByGenre env2 [28, 12]`:
both genres contribute the same ten items, each admitted twice in the same
iteration. -/
def dupList : List Movie := movies10 ++ movies10

/-! ## Helper lemmas (shared) -/

/-- A predicate holding for exactly one list element: `findIdx?` finds an
index, erasing that index leaves no matching element, and every
non-matching element survives the erasure. -/
theorem findIdx?_of_countP_eq_one {α : Type} {p : α → Bool} {col : List α}
    (h : col.countP p = 1) :
    ∃ i, col.findIdx? p = some i ∧ (col.eraseIdx i).countP p = 0 ∧
      ∀ m ∈ col, ¬ p m = true → m ∈ col.eraseIdx i := by
  induction col with
  | nil => simp [List.countP_nil] at h
  | cons a l ih =>
    by_cases hp : p a = true
    · have hl : l.countP p = 0 := by
        have := List.countP_cons_of_pos (p := p) l hp
        omega
      refine ⟨0, by simp [hp], by simpa using hl, ?_⟩
      intro m hm hmp
      rcases List.mem_cons.1 hm with rfl | hm'
      · exact absurd hp hmp
      · simpa using hm'
    · have hl : l.countP p = 1 := by
        have := List.countP_cons_of_neg (p := p) l (by simpa using hp)
        omega
      obtain ⟨i, hfind, hcount, hmem⟩ := ih hl
      refine ⟨i + 1, ?_, ?_, ?_⟩
      · simp [hp, List.findIdx?_succ, hfind]
      · simpa [hp] using hcount
      · intro m hm hmp
        rcases List.mem_cons.1 hm with rfl | hm'
        · simp
        · simpa using Or.inr (hmem m hm' hmp)

/-! ## Claim theorems: collection manager -/

/-- C3: adding an item whose title is already in the user's collection fails
with the 400 Conflict response and leaves the stored collection document
exactly as it was (nothing appended, nothing persisted). -/
theorem add_duplicate_title_conflict (store : Store) (id : Nat)
    (posterPath title : String) (genres : List String)
    (h : ∃ m ∈ store.getD [], m.title = title) :
    addToMovieCollection store id posterPath title genres =
      (store, ApiResult.failed 400 "Movie already exists in collection") := by
  obtain ⟨m, hm, ht⟩ := h
  have hany : (store.getD []).any (fun movie => movie.title == title) = true :=
    List.any_eq_true.2 ⟨m, hm, by simp [ht]⟩
  unfold addToMovieCollection
  simp [hany]

/-- Witness for C3: a concrete conflicting add is rejected unchanged. -/
theorem add_duplicate_title_conflict_witness :
    addToMovieCollection (some [⟨1, "p", "Dune", [], defaultStatus⟩]) 2 "q" "Dune" [] =
      (some [⟨1, "p", "Dune", [], defaultStatus⟩],
       ApiResult.failed 400 "Movie already exists in collection") :=
  add_duplicate_title_conflict (some [⟨1, "p", "Dune", [], defaultStatus⟩]) 2 "q" "Dune" []
    ⟨⟨1, "p", "Dune", [], defaultStatus⟩, by simp, rfl⟩

/-- C7: updating the status of an item id absent from an existing collection
answers 404 and leaves the store unchanged (a subsequent get returns the same
movies); when the collection itself is absent, the lookup throws the
`'Movie collection not found'` NotFound error, forwarded to the generic
handler, again without touching the store. -/
theorem updateStatus_absent_notFound (col : List SavedMovie) (movieId : Nat)
    (status : String) (h : ∀ m ∈ col, m.id ≠ movieId) :
    updateMovieStatus (some col) movieId status =
      (some col, ApiResult.failed 404 "Movie not found in user's collection")
    ∧ getMovieCollection (updateMovieStatus (some col) movieId status).1 =
        ApiResult.okMovies col
    ∧ updateMovieStatus none movieId status =
        (none, ApiResult.errorNext "Movie collection not found") := by
  have hfind : col.find? (fun movie => movie.id == movieId) = none := by
    rw [List.find?_eq_none]
    intro m hm
    simpa using h m hm
  refine ⟨?_, ?_, rfl⟩
  · unfold updateMovieStatus
    simp [hfind]
  · unfold updateMovieStatus
    simp [hfind, getMovieCollection]

/-- Witness for C7: a concrete absent-item update answers 404 and a get still
sees the untouched collection. -/
theorem updateStatus_absent_notFound_witness :
    updateMovieStatus (some [⟨1, "p", "Dune", [], defaultStatus⟩]) 9 "watched" =
      (some [⟨1, "p", "Dune", [], defaultStatus⟩],
       ApiResult.failed 404 "Movie not found in user's collection") :=
  (updateStatus_absent_notFound [⟨1, "p", "Dune", [], defaultStatus⟩] 9 "watched"
    (by decide)).1

/-- C8: when exactly one saved item carries the given id, the first remove
succeeds, a second remove of the same id answers 404 with the store
unchanged, and every item with a different id survives the removal. -/
theorem delete_twice_first_ok_second_notFound (col : List SavedMovie) (movieId : Nat)
    (h : col.countP (fun movie => movie.id == movieId) = 1) :
    (deleteMovieFromCollection (some col) movieId).2 =
      ApiResult.okMsg "Movie removed from collection"
    ∧ deleteMovieFromCollection (deleteMovieFromCollection (some col) movieId).1 movieId =
        ((deleteMovieFromCollection (some col) movieId).1,
         ApiResult.failed 404 "Movie not found in user's collection")
    ∧ ∀ m ∈ col, m.id ≠ movieId →
        m ∈ ((deleteMovieFromCollection (some col) movieId).1.getD []) := by
  obtain ⟨i, hfind, hcount, hmem⟩ :=
    findIdx?_of_countP_eq_one (p := fun movie : SavedMovie => movie.id == movieId) h
  have hnone : (col.eraseIdx i).findIdx? (fun movie => movie.id == movieId) = none := by
    rw [List.findIdx?_eq_none_iff]
    intro m hm
    have := List.countP_eq_zero.1 hcount m hm
    simpa using this
  refine ⟨?_, ?_, ?_⟩
  · unfold deleteMovieFromCollection
    simp [hfind]
  · unfold deleteMovieFromCollection
    simp [hfind, hnone]
  · intro m hm hmne
    unfold deleteMovieFromCollection
    simp [hfind]
    exact hmem m hm (by simpa using hmne)

/-- Witness for C8: removing a concretely present id once succeeds, twice
answers 404, and the other saved item is still there. -/
theorem delete_twice_witness :
    (deleteMovieFromCollection (some [⟨1, "p", "Dune", [], defaultStatus⟩,
        ⟨2, "q", "Tron", [], defaultStatus⟩]) 1).2 =
      ApiResult.okMsg "Movie removed from collection"
    ∧ (⟨2, "q", "Tron", [], defaultStatus⟩ : SavedMovie) ∈
        ((deleteMovieFromCollection (some [⟨1, "p", "Dune", [], defaultStatus⟩,
          ⟨2, "q", "Tron", [], defaultStatus⟩]) 1).1.getD []) :=
  ⟨(delete_twice_first_ok_second_notFound [⟨1, "p", "Dune", [], defaultStatus⟩,
      ⟨2, "q", "Tron", [], defaultStatus⟩] 1 (by decide)).1,
   (delete_twice_first_ok_second_notFound [⟨1, "p", "Dune", [], defaultStatus⟩,
      ⟨2, "q", "Tron", [], defaultStatus⟩] 1 (by decide)).2.2
     ⟨2, "q", "Tron", [], defaultStatus⟩ (by decide) (by decide)⟩

/-- C9: adding a title not yet in the collection succeeds, and a subsequent
get returns the old movies with the new item appended, carrying exactly the
given id, poster path, title and genres and the schema's default status. -/
theorem add_get_roundtrip (store : Store) (id : Nat) (posterPath title : String)
    (genres : List String) (h : ∀ m ∈ store.getD [], m.title ≠ title) :
    (addToMovieCollection store id posterPath title genres).2 =
      ApiResult.okMsg "Movie added to collection"
    ∧ getMovieCollection (addToMovieCollection store id posterPath title genres).1 =
        ApiResult.okMovies (store.getD [] ++
          [⟨id, posterPath, title, genres, defaultStatus⟩]) := by
  have hany : (store.getD []).any (fun movie => movie.title == title) = false := by
    rw [List.any_eq_false]
    intro m hm
    simpa using h m hm
  constructor
  · unfold addToMovieCollection
    simp [hany]
  · unfold addToMovieCollection
    simp [hany, getMovieCollection]

/-- Witness for C9: a concrete fresh add is visible through get with the
default status. -/
theorem add_get_roundtrip_witness :
    getMovieCollection (addToMovieCollection (some [⟨1, "p", "Dune", [], defaultStatus⟩])
        7 "q" "Tron" ["sci-fi"]).1 =
      ApiResult.okMovies [⟨1, "p", "Dune", [], defaultStatus⟩,
        ⟨7, "q", "Tron", ["sci-fi"], defaultStatus⟩] :=
  (add_get_roundtrip (some [⟨1, "p", "Dune", [], defaultStatus⟩]) 7 "q" "Tron" ["sci-fi"]
    (by decide)).2

/-! ## Helper lemmas: the recommendation loop -/

/-- A successful iteration leaves the state exactly as the loop body writes
it: candidates appended then truncated to 20, the widening branch on the
filtered count applied, the iteration counter and call count advanced. -/
theorem step_ok_eq (env : Env) (st st' : RecState) (h : step env st = Except.ok st') :
    st' = { genres := if (stepFiltered env st).isEmpty then st.genres ++ [none] else st.genres
            mpg := if (stepFiltered env st).isEmpty then 5 else 10
            recd := (st.recd ++ stepFiltered env st).take 20
            iter := st.iter + 1
            calls := st.calls + st.genres.length } := by
  unfold step at h
  by_cases hs : sentinelFree st.genres = true
  · simp only [hs, if_true] at h
    exact (Except.ok.inj h).symm
  · simp only [hs] at h
    simp at h

/-- While the loop condition holds, every successful iteration strictly
decreases the termination measure. -/
theorem step_measure_lt (env : Env) (st st' : RecState)
    (hc : loopCond st = true) (h : step env st = Except.ok st') :
    loopMeasure st' < loopMeasure st := by
  have hrec : st.recd.length < 20 ∧ st.genres.length < 20 := by
    have := hc
    unfold loopCond at this
    simpa using this
  have he := step_ok_eq env st st' h
  subst he
  by_cases hf : (stepFiltered env st).isEmpty = true
  · have hnil : stepFiltered env st = [] := by
      cases hfe : stepFiltered env st with
      | nil => rfl
      | cons a l => rw [hfe] at hf; simp at hf
    unfold loopMeasure
    simp only [hf, if_true, hnil, List.append_nil, List.length_append]
    rw [List.take_of_length_le (le_of_lt hrec.1)]
    simp
    omega
  · have hpos : 0 < (stepFiltered env st).length := by
      cases hfe : stepFiltered env st with
      | nil => rw [hfe] at hf; simp at hf
      | cons a l => simp
    unfold loopMeasure
    simp [hf, List.length_take, List.length_append]
    omega

/-- While the loop condition holds the measure is positive. -/
theorem loopCond_measure_pos (st : RecState) (hc : loopCond st = true) :
    0 < loopMeasure st := by
  have h2 : st.recd.length < 20 ∧ st.genres.length < 20 := by
    unfold loopCond at hc
    simpa using hc
  unfold loopMeasure
  omega

/-- When the loop condition already fails, any amount of fuel exits at once. -/
theorem loopFuel_of_cond_false (env : Env) (fuel : Nat) (st : RecState)
    (h : loopCond st = false) : loopFuel env fuel st = some (Except.ok st) := by
  cases fuel <;> simp [loopFuel, h]

/-- Fuel at least the measure never runs out: the loop always exits. -/
theorem loopFuel_isSome (env : Env) (fuel : Nat) (st : RecState)
    (h : loopMeasure st ≤ fuel) : (loopFuel env fuel st).isSome = true := by
  induction fuel generalizing st with
  | zero =>
    cases hc : loopCond st with
    | false => simp [loopFuel, hc]
    | true => exact absurd h (by have := loopCond_measure_pos st hc; omega)
  | succ fuel ih =>
    cases hc : loopCond st with
    | false => simp [loopFuel, hc]
    | true =>
      cases hstep : step env st with
      | error e => simp [loopFuel, hc, hstep]
      | ok st' =>
        have hlt := step_measure_lt env st st' hc hstep
        have : loopFuel env (fuel + 1) st = loopFuel env fuel st' := by
          simp [loopFuel, hc, hstep]
        rw [this]
        exact ih st' (by omega)

/-- Above the measure, extra fuel does not change the loop's answer. -/
theorem loopFuel_succ_eq (env : Env) (fuel : Nat) (st : RecState)
    (h : loopMeasure st ≤ fuel) :
    loopFuel env (fuel + 1) st = loopFuel env fuel st := by
  induction fuel generalizing st with
  | zero =>
    cases hc : loopCond st with
    | false => simp [loopFuel, hc]
    | true => exact absurd h (by have := loopCond_measure_pos st hc; omega)
  | succ fuel ih =>
    cases hc : loopCond st with
    | false => simp [loopFuel, hc]
    | true =>
      cases hstep : step env st with
      | error e => simp [loopFuel, hc, hstep]
      | ok st' =>
        have hlt := step_measure_lt env st st' hc hstep
        have h1 : loopFuel env (fuel + 1 + 1) st = loopFuel env (fuel + 1) st' := by
          simp [loopFuel, hc, hstep]
        have h2 : loopFuel env (fuel + 1) st = loopFuel env fuel st' := by
          simp [loopFuel, hc, hstep]
        rw [h1, h2]
        exact ih st' (by omega)

/-- The measure of any state is at most 40. -/
theorem loopMeasure_le_forty (st : RecState) : loopMeasure st ≤ 40 := by
  unfold loopMeasure
  omega

/-- 40 units of fuel always suffice: any larger budget gives the same answer. -/
theorem loopFuel_stable (env : Env) (st : RecState) (fuel : Nat) (h : 40 ≤ fuel) :
    loopFuel env fuel st = loopFuel env 40 st := by
  obtain ⟨k, rfl⟩ := Nat.exists_eq_add_of_le h
  induction k with
  | zero => rfl
  | succ k ih =>
    have : 40 + (k + 1) = (40 + k) + 1 := by omega
    rw [this, loopFuel_succ_eq env (40 + k) st (by have := loopMeasure_le_forty st; omega)]
    exact ih (by omega)

/-- A normal (non-throwing) exit happens exactly when the `while` condition
has failed. -/
theorem loopFuel_ok_cond_false (env : Env) (fuel : Nat) (st fin : RecState)
    (h : loopFuel env fuel st = some (Except.ok fin)) : loopCond fin = false := by
  induction fuel generalizing st with
  | zero =>
    cases hc : loopCond st with
    | false =>
      rw [loopFuel_of_cond_false env 0 st hc] at h
      cases h
      exact hc
    | true => simp [loopFuel, hc] at h
  | succ fuel ih =>
    cases hc : loopCond st with
    | false =>
      rw [loopFuel_of_cond_false env (fuel + 1) st hc] at h
      cases h
      exact hc
    | true =>
      cases hstep : step env st with
      | error e => simp [loopFuel, hc, hstep] at h
      | ok st' =>
        have : loopFuel env (fuel + 1) st = loopFuel env fuel st' := by
          simp [loopFuel, hc, hstep]
        rw [this] at h
        exact ih st' h

/-- The accumulated list never exceeds 20 entries (it is truncated on every
iteration). -/
theorem loopFuel_recd_le (env : Env) (fuel : Nat) (st fin : RecState)
    (hlen : st.recd.length ≤ 20) (h : loopFuel env fuel st = some (Except.ok fin)) :
    fin.recd.length ≤ 20 := by
  induction fuel generalizing st with
  | zero =>
    cases hc : loopCond st with
    | false =>
      rw [loopFuel_of_cond_false env 0 st hc] at h
      cases h
      exact hlen
    | true => simp [loopFuel, hc] at h
  | succ fuel ih =>
    cases hc : loopCond st with
    | false =>
      rw [loopFuel_of_cond_false env (fuel + 1) st hc] at h
      cases h
      exact hlen
    | true =>
      cases hstep : step env st with
      | error e => simp [loopFuel, hc, hstep] at h
      | ok st' =>
        have heq : loopFuel env (fuel + 1) st = loopFuel env fuel st' := by
          simp [loopFuel, hc, hstep]
        rw [heq] at h
        have hst' : st'.recd.length ≤ 20 := by
          rw [step_ok_eq env st st' hstep]
          simp
        exact ih st' hst' h

/-- Extending a reached loop state by one more successful iteration. -/
theorem loopState_snoc (env : Env) (n : Nat) (base st st' : RecState)
    (h : loopState env n base = some st) (hc : loopCond st = true)
    (hs : step env st = Except.ok st') :
    loopState env (n + 1) base = some st' := by
  induction n generalizing base with
  | zero =>
    simp only [loopState] at h
    have hb : base = st := Option.some.inj h
    subst hb
    simp [loopState, hc, hs]
  | succ n ih =>
    simp only [loopState] at h
    by_cases hcb : loopCond base = true
    · simp only [hcb, if_true] at h
      cases hsb : step env base with
      | error e => rw [hsb] at h; simp at h
      | ok st1 =>
        rw [hsb] at h
        have hext := ih st1 h
        have hgoal : loopState env (n + 1 + 1) base = loopState env (n + 1) st1 := by
          simp only [loopState, hcb, if_true, hsb]
        rw [hgoal]
        exact hext
    · simp [hcb] at h

/-- Every accumulated movie passed the saved-id filter of the iteration that
took it in: it is among the filtered candidates of a reached loop state whose
freshly fetched saved-id list misses its external id. -/
theorem loopFuel_excludes_saved (env : Env) (gs : List Nat) (fuel j : Nat)
    (st fin : RecState)
    (hreach : loopState env j (initState gs) = some st)
    (hiter : st.iter = j)
    (hinv : ∀ m ∈ st.recd, UnsavedWhenFiltered env gs m)
    (h : loopFuel env fuel st = some (Except.ok fin)) :
    ∀ m ∈ fin.recd, UnsavedWhenFiltered env gs m := by
  induction fuel generalizing st j with
  | zero =>
    cases hc : loopCond st with
    | false =>
      rw [loopFuel_of_cond_false env 0 st hc] at h
      cases h
      exact hinv
    | true => simp [loopFuel, hc] at h
  | succ fuel ih =>
    cases hc : loopCond st with
    | false =>
      rw [loopFuel_of_cond_false env (fuel + 1) st hc] at h
      cases h
      exact hinv
    | true =>
      cases hstep : step env st with
      | error e => simp [loopFuel, hc, hstep] at h
      | ok st' =>
        have heq : loopFuel env (fuel + 1) st = loopFuel env fuel st' := by
          simp [loopFuel, hc, hstep]
        rw [heq] at h
        have hreach' : loopState env (j + 1) (initState gs) = some st' :=
          loopState_snoc env j (initState gs) st st' hreach hc hstep
        have hiter' : st'.iter = j + 1 := by
          rw [step_ok_eq env st st' hstep]
          simp [hiter]
        refine ih (j + 1) st' hreach' hiter' ?_ h
        intro m hm
        rw [step_ok_eq env st st' hstep] at hm
        simp only at hm
        have hm' := List.mem_of_mem_take hm
        rcases List.mem_append.1 hm' with hold | hnew
        · exact hinv m hold
        · refine ⟨j, st, hreach, hiter, hnew, ?_⟩
          have hmf := (List.mem_filter.1 hnew).2
          simp only [Bool.and_eq_true, Bool.not_eq_true'] at hmf
          rw [hiter] at hmf
          exact hmf.1

/-- Dissecting a returned movie list: it is the accumulated list of a normal
loop exit. -/
theorem recommend_movies_cases (env : Env) (gs : List Nat) (l : List Movie) (c : Nat)
    (h : recommendMoviesByGenre env gs = RecOutcome.movies l c) :
    ∃ fin, loopFuel env 40 (initState gs) = some (Except.ok fin) ∧ fin.recd = l := by
  unfold recommendMoviesByGenre at h
  cases hl : loopFuel env 40 (initState gs) with
  | none => rw [hl] at h; simp at h
  | some r =>
    cases r with
    | error e => rw [hl] at h; simp at h
    | ok fin =>
      rw [hl] at h
      cases he : fin.recd.isEmpty with
      | true => simp [he] at h
      | false =>
        simp [he] at h
        exact ⟨fin, rfl, h.1⟩

/-! ## Claim theorems: recommendation aggregator -/

/-- Counterexample to C1: in a world where the discovery calls for the user's
two genres answer the same ten popular items, the aggregation returns a list
in which every external id occurs twice — the in-iteration filter checks
candidates only against the *previously* accumulated list, so the same id
admitted through two genres in one pass is not deduplicated. -/
theorem recommend_dup_ids_cx :
    recommendMoviesByGenre env2 [28, 12] = RecOutcome.movies dupList 2
    ∧ ¬ (dupList.map Movie.id).Nodup :=
  ⟨rfl, by decide⟩

/-- C1 (amended): the returned recommendation list never exceeds 20 items
(its ids are deduplicated only against earlier iterations and the saved set,
not within one iteration). -/
theorem recommend_length_le_twenty (env : Env) (gs : List Nat) (l : List Movie) (c : Nat)
    (h : recommendMoviesByGenre env gs = RecOutcome.movies l c) : l.length ≤ 20 := by
  obtain ⟨fin, hloop, hrecd⟩ := recommend_movies_cases env gs l c h
  rw [← hrecd]
  exact loopFuel_recd_le env 40 (initState gs) fin (by simp [initState]) hloop

/-- Witness for C1 (amended): the concrete duplicated result still has at
most 20 entries. -/
theorem recommend_length_le_twenty_witness : dupList.length ≤ 20 :=
  recommend_length_le_twenty env2 [28, 12] dupList 2 rfl

/-- Counterexample to C2: for a user with an empty genre list the operation
does not answer the 400 `'No recommended movies found'` response — the first
pass issues no calls and accumulates nothing, the widening branch pushes the
null sentinel, and the second pass throws `TypeError` out of
`JSON.parse(null).id`, reaching the generic error handler instead. -/
theorem empty_genres_cx :
    recommendMoviesByGenre envW [] = RecOutcome.err 0
    ∧ recommendMoviesByGenre envW [] ≠ RecOutcome.emptyResult 0 :=
  ⟨rfl, by decide⟩

/-- C2 (amended): for every catalog/store state, a user with an empty
preferred-genre list gets the forwarded-error outcome with zero discovery
calls issued: the empty first pass pushes the null sentinel and the second
pass throws while building the discovery URL, before any call is made. -/
theorem empty_genres_generic_error (env : Env) :
    recommendMoviesByGenre env [] = RecOutcome.err 0 := rfl

/-- C4: every movie in a returned recommendation list entered through the
candidate filter of an iteration the run actually reached, and its external
id was absent from the saved-item id list fetched on that very iteration —
no returned item was in the user's saved set at the time it was filtered in. -/
theorem recommend_excludes_saved (env : Env) (gs : List Nat) (l : List Movie) (c : Nat)
    (h : recommendMoviesByGenre env gs = RecOutcome.movies l c) :
    ∀ m ∈ l, UnsavedWhenFiltered env gs m := by
  obtain ⟨fin, hloop, hrecd⟩ := recommend_movies_cases env gs l c h
  rw [← hrecd]
  exact loopFuel_excludes_saved env gs 40 0 (initState gs) fin rfl rfl
    (by simp [initState]) hloop

/-- Witness for C4: a concrete returned movie's id is indeed absent from the
saved-id list fetched on the iteration that took it in. -/
theorem recommend_excludes_saved_witness :
    (savedIdsAt env2 0).contains 101 = false := by
  obtain ⟨n, st', hreach, hiter, hmem, hn⟩ :=
    recommend_excludes_saved env2 [28, 12] dupList 2 rfl ⟨101, "m1"⟩ (by decide)
  exact hn

/-- The state reached after the first iteration of
`recommendMoviesByGenre envW [7]`: the empty filtered pass appended the null
sentinel and dropped `moviesPerGenre` to 5. -/
def stW' : RecState :=
  { genres := [some 7, none], mpg := 5, recd := [], iter := 1, calls := 1 }

/-- Counterexample to C5: the null sentinel is not a pass-through no-op
filter — the next iteration over a sentinel-bearing genre list throws while
building the URL (before any discovery call completes), so the whole
aggregation aborts through the generic handler instead of widening to
unfiltered popularity discovery. -/
theorem widening_sentinel_aborts_cx :
    step envW stW' = Except.error { stW' with calls := 2 }
    ∧ recommendMoviesByGenre envW [7] = RecOutcome.err 2 :=
  ⟨rfl, rfl⟩

/-- C5 (amended): an iteration with zero filtered candidates appends the null
sentinel and sets `perGenreFetchCount` to 5 for the next pass, otherwise it
resets the count to 10 and leaves the genre list unchanged; but once the
working genre list carries the sentinel, the next iteration errors out
(a `TypeError` from `JSON.parse(null).id`) rather than acting as a
pass-through filter. -/
theorem widening_policy (env : Env) (st st' : RecState) (h : step env st = Except.ok st') :
    ((stepFiltered env st).isEmpty = true → st'.genres = st.genres ++ [none] ∧ st'.mpg = 5)
    ∧ ((stepFiltered env st).isEmpty = false → st'.genres = st.genres ∧ st'.mpg = 10)
    ∧ (sentinelFree st'.genres = false →
        step env st' = Except.error
          { st' with calls := st'.calls + (st'.genres.takeWhile Option.isSome).length }) := by
  have he := step_ok_eq env st st' h
  refine ⟨?_, ?_, ?_⟩
  · intro hf
    rw [he]
    simp [hf]
  · intro hf
    rw [he]
    simp [hf]
  · intro hs
    unfold step
    simp [hs]

/-- Witness for C5 (amended): the concrete empty first iteration of
`recommendMoviesByGenre envW [7]` appends the sentinel and drops the fetch
count to 5. -/
theorem widening_policy_witness :
    stW'.genres = (initState [7]).genres ++ [none] ∧ stW'.mpg = 5 :=
  (widening_policy envW (initState [7]) stW' rfl).1 rfl

/-- C6: the loop always terminates — 40 units of fuel are never exhausted,
more fuel never changes the answer, and a normal exit happens only once 20
movies are accumulated or the working genre list has reached 20 entries. -/
theorem recommend_loop_terminates (env : Env) (gs : List Nat) (fuel : Nat)
    (h : 40 ≤ fuel) :
    (loopFuel env fuel (initState gs)).isSome = true
    ∧ loopFuel env fuel (initState gs) = loopFuel env 40 (initState gs)
    ∧ ∀ fin, loopFuel env fuel (initState gs) = some (Except.ok fin) →
        20 ≤ fin.recd.length ∨ 20 ≤ fin.genres.length := by
  have hstable := loopFuel_stable env (initState gs) fuel h
  refine ⟨?_, hstable, ?_⟩
  · rw [hstable]
    exact loopFuel_isSome env 40 (initState gs) (loopMeasure_le_forty _)
  · intro fin hfin
    have hc := loopFuel_ok_cond_false env fuel (initState gs) fin hfin
    unfold loopCond at hc
    simp at hc
    omega

/-- Witness for C6: with concrete fuel 41 the loop on an empty genre list is
exited (not stuck) and agrees with the fuel-40 run. -/
theorem recommend_loop_terminates_witness :
    (loopFuel envW 41 (initState [])).isSome = true
    ∧ loopFuel envW 41 (initState []) = loopFuel envW 40 (initState []) :=
  ⟨(recommend_loop_terminates envW [] 41 (by decide)).1,
   (recommend_loop_terminates envW [] 41 (by decide)).2.1⟩

/-- C10: a user whose filtered genre list already holds 20 or more entries
fails the `genres.length < 20` condition before the first pass: no discovery
call is ever issued and the response is the 400
`'No recommended movies found'`, whatever the catalog holds. -/
theorem twenty_genres_empty_result (env : Env) (gs : List Nat) (h : 20 ≤ gs.length) :
    recommendMoviesByGenre env gs = RecOutcome.emptyResult 0 := by
  have hcond : loopCond (initState gs) = false := by
    unfold loopCond initState
    simp
    omega
  unfold recommendMoviesByGenre
  rw [loopFuel_of_cond_false env 40 (initState gs) hcond]
  simp [initState]

/-- A concrete 20-entry genre list. -/
def genres20 : List Nat := [1, 2, 3, 4, 5, 6, 7, 8, 9, 10, 11, 12, 13, 14, 15, 16, 17, 18, 19, 20]

/-- Witness for C10: twenty concrete genres give the 400 outcome with zero
discovery calls even over a non-empty catalog. -/
theorem twenty_genres_empty_result_witness :
    recommendMoviesByGenre env2 genres20 = RecOutcome.emptyResult 0 :=
  twenty_genres_empty_result env2 genres20 (by decide)

end MovieApp
